import Mathlib

/-!
Verification development for the building-aggregation-tool geospatial wrapper
layer.  Two areas are embedded:

* `src/rust/geo_util/src/convert/rustgeo_to_geos.rs` — conversion of
  `geo_types` values into GEOS coordinate sequences, in particular the
  ring-closure repair of `TryFrom<LineRing> for GGeometry` and the sequence
  builder `create_coord_seq`.
* `src/rust/gdal/src/spatial_ref/srs.rs` and `src/rust/gdal/src/config.rs` —
  the `SpatialRef` / `CoordTransform` wrappers over the native projection
  engine, and the configuration accessors.

The native engines (GEOS and GDAL) are external libraries; their calls are
modelled as oracle structures whose fields record the outcome of each native
call the wrapper makes.  Rust `f64` coordinate values are modelled as
rationals: the wrapper performs no floating-point arithmetic of its own, it
only moves values and compares them for equality (NaN and negative zero are
outside this model).
-/

/-- Mirrors `geo_types::Coordinate<f64>`: a 2D coordinate. -/
structure Coordinate where
  x : ℚ
  y : ℚ
deriving DecidableEq, Inhabited

/-- Modelled from the spec: the `error::Error` type of the geometry crate is
not under `src/`; the spec's `InvalidGeometryError{reason}` and
`SequenceWriteError` are the two constructors the embedded code produces. -/
inductive GeosError where
  /-- `Error::InvalidGeometry(String)` -/
  | invalidGeometry (reason : String)
  /-- per-index coordinate assignment rejected by the engine
  (`CoordSeq::set_x` / `set_y` returning `Err`) -/
  | sequenceWrite
deriving DecidableEq

/-- The observable state of a native GEOS coordinate sequence: a declared
length fixed at creation and one slot per index for X and for Y, `none`
while unassigned. -/
structure CoordSeqState where
  len : Nat
  xs : List (Option ℚ)
  ys : List (Option ℚ)
deriving DecidableEq

/-- Oracle for the native GEOS calls made by `create_coord_seq`:
whether `GEOSCoordSeq_create` (via `CoordSeq::new`) succeeds for a given
length, and whether the engine accepts each per-index X / Y assignment
(arguments: declared length, index, value). -/
structure GeosEngine where
  allocCoordSeq : Nat → Bool
  setXOk : Nat → Nat → ℚ → Bool
  setYOk : Nat → Nat → ℚ → Bool

/-- Result of `create_coord_seq` (and of the ring conversion that feeds it):
`panicked` models the Rust `.expect(...)` on allocation failure. -/
inductive CCResult where
  | panicked
  | err (e : GeosError)
  | ok (st : CoordSeqState)
deriving DecidableEq

/-- The write loop of `create_coord_seq`
(`for (i, p) in points.enumerate() { coord_seq.set_x(i, p.x)?; coord_seq.set_y(i, p.y)?; }`),
started at index `i` with the sequence state so far. -/
def writeCoords (e : GeosEngine) (len : Nat) : Nat → List Coordinate → CoordSeqState → CCResult
  | _, [], st => .ok st
  | i, p :: ps, st =>
    if e.setXOk len i p.x then
      let st1 : CoordSeqState := ⟨st.len, st.xs.set i (some p.x), st.ys⟩
      if e.setYOk len i p.y then
        writeCoords e len (i + 1) ps ⟨st1.len, st1.xs, st1.ys.set i (some p.y)⟩
      else .err .sequenceWrite
    else .err .sequenceWrite

/-- `create_coord_seq` (rustgeo_to_geos.rs lines 30–41): allocates a sequence
of the requested length — panicking via `.expect` if the native constructor
fails — then assigns X and Y per index, propagating the first rejected
assignment as an error. -/
def create_coord_seq (e : GeosEngine) (points : List Coordinate) (len : Nat) : CCResult :=
  if e.allocCoordSeq len then
    writeCoords e len 0 points ⟨len, List.replicate len none, List.replicate len none⟩
  else .panicked

/-- `TryFrom<LineRing> for GGeometry` (rustgeo_to_geos.rs lines 101–124) up to
and including the coordinate sequence it builds (the final
`GGeometry::create_linear_ring` call consumes that sequence unchanged).
`first == last` is the Rust `Option` comparison `points.first() == points.last()`. -/
def convertRing (e : GeosEngine) (points : List Coordinate) : CCResult :=
  let nbPoints := points.length
  if 0 < nbPoints ∧ nbPoints < 3 then
    .err (.invalidGeometry
      "impossible to create a LinearRing, A LinearRing must have at least 3 coordinates")
  else
    let isClosed : Bool := decide (0 < nbPoints) && decide (points.head? = points.getLast?)
    let needClosing : Bool := decide (0 < nbPoints) && (!isClosed || decide (nbPoints = 3))
    if needClosing then
      match points with
      | [] => create_coord_seq e [] (nbPoints + 1)
      | p :: _ => create_coord_seq e (points ++ [p]) (nbPoints + 1)
    else
      create_coord_seq e points nbPoints

/-- A GEOS oracle on which every native call succeeds. -/
def okGeosEngine : GeosEngine :=
  ⟨fun _ => true, fun _ _ _ => true, fun _ _ _ => true⟩

/-- Models `gdal_sys::OSRAxisMappingStrategy::Type` (a C enum). -/
inductive AxisStrategy where
  | traditionalGisOrder
  | authorityCompliant
  | custom
deriving DecidableEq, Inhabited

/-- Modelled from the spec: `crate::errors::ErrorKind` is not under `src/`.
Constructors follow the spec's error kinds and the variants the embedded code
constructs: `nulError` is the `EncodingError` produced when `CString::new`
meets an embedded NUL; `nullPointer` is `NullHandleError{operationName}`
(built by `utils::_last_null_pointer_err`); `ogrError` is
`ReferenceSystemError{nativeErrorCode, operationName}`; `cplError` is the
drained last-error buffer (built by `utils::_last_cpl_err`);
`invalidCoordinateRange` carries both identities and the optional message
(the source's field names are `from`/`to`; Lean reserves `from`). -/
inductive ErrorKind where
  | nulError
  | nullPointer (methodName : String)
  | ogrError (err : Nat) (methodName : String)
  | cplError (cls : Nat) (num : Nat) (msg : String)
  | invalidCoordinateRange (src : String) (dst : String) (msg : Option String)
deriving DecidableEq

/-- `OGRErr::OGRERR_NONE`. -/
def OGRERR_NONE : Nat := 0

/-- `OGRErr::OGRERR_UNSUPPORTED_SRS`. -/
def OGRERR_UNSUPPORTED_SRS : Nat := 7

/-- `CString::new` fails with a `NulError` exactly when the byte string
contains a NUL byte (each NUL is a single byte in UTF-8). -/
def containsNul (s : String) : Bool :=
  s.toList.any (fun c => c.toNat == 0)

/-- The observable state of one native `OGRSpatialReference` object: the
results the engine would hand back for the calls the wrapper makes
(`OSRGetAuthorityName` / `OSRGetAuthorityCode` return `none` for a NULL
pointer; `proj4Rv`/`proj4Str` are the status and output of
`OSRExportToProj4`), the axis-mapping strategy, and an abstract semantic
identity compared by `OSRIsSame`. -/
structure SRSData where
  authName : Option String
  authCode : Option String
  proj4Rv : Nat
  proj4Str : String
  axisStrategy : AxisStrategy
  semantic : Nat
deriving DecidableEq, Inhabited

/-- `OSRSetAxisMappingStrategy` on the in-memory object. -/
def setStrategyData (d : SRSData) (s : AxisStrategy) : SRSData :=
  { d with axisStrategy := s }

/-- Oracle for the native OSR construction calls: `parseWkt` is
`OSRNewSpatialReference(wkt)` (`none` = NULL); `newEmpty` is
`OSRNewSpatialReference(NULL)`; the import calls receive the possibly-NULL
fresh object (the source checks `newEmpty` for NULL only in `new` and
`from_definition`) and return the native status code and the object state. -/
structure OsrEngine where
  parseWkt : String → Option SRSData
  newEmpty : Option SRSData
  setFromUserInput : SRSData → String → Nat × SRSData
  importFromEPSG : Option SRSData → Nat → Nat × SRSData
  importFromProj4 : Option SRSData → String → Nat × SRSData
  importFromESRI : Option SRSData → String → Nat × SRSData

/-- `SpatialRef::new` (srs.rs lines 138–144). -/
def SpatialRef.new (e : OsrEngine) : Except ErrorKind SRSData :=
  match e.newEmpty with
  | none => .error (.nullPointer "OSRNewSpatialReference")
  | some d => .ok d

/-- `SpatialRef::from_definition` (srs.rs lines 146–160): fresh object first
(NULL-checked), then the argument is converted to a C string (the `?` on
`CString::new` fires here), then `OSRSetFromUserInput`.  No axis-order
normalization. -/
def SpatialRef.from_definition (e : OsrEngine) (definition : String) : Except ErrorKind SRSData :=
  match e.newEmpty with
  | none => .error (.nullPointer "OSRNewSpatialReference")
  | some d =>
    if containsNul definition then .error .nulError
    else
      let rv := e.setFromUserInput d definition
      if rv.1 ≠ OGRERR_NONE then .error (.ogrError rv.1 "OSRSetFromUserInput")
      else .ok rv.2

/-- `SpatialRef::from_wkt` (srs.rs lines 162–173): C-string conversion, then
`OSRNewSpatialReference(wkt)` NULL-checked, then the axis-mapping strategy is
set to traditional GIS order. -/
def SpatialRef.from_wkt (e : OsrEngine) (wkt : String) : Except ErrorKind SRSData :=
  if containsNul wkt then .error .nulError
  else
    match e.parseWkt wkt with
    | none => .error (.nullPointer "OSRNewSpatialReference")
    | some d => .ok (setStrategyData d .traditionalGisOrder)

/-- `SpatialRef::from_epsg` (srs.rs lines 175–189): fresh object (not
NULL-checked in the source), `OSRImportFromEPSG`, and on success the
axis-mapping strategy is set to traditional GIS order. -/
def SpatialRef.from_epsg (e : OsrEngine) (epsgCode : Nat) : Except ErrorKind SRSData :=
  let rv := e.importFromEPSG e.newEmpty epsgCode
  if rv.1 ≠ OGRERR_NONE then .error (.ogrError rv.1 "OSRImportFromEPSG")
  else .ok (setStrategyData rv.2 .traditionalGisOrder)

/-- `SpatialRef::from_proj4` (srs.rs lines 191–206). -/
def SpatialRef.from_proj4 (e : OsrEngine) (proj4String : String) : Except ErrorKind SRSData :=
  if containsNul proj4String then .error .nulError
  else
    let rv := e.importFromProj4 e.newEmpty proj4String
    if rv.1 ≠ OGRERR_NONE then .error (.ogrError rv.1 "OSRImportFromProj4")
    else .ok (setStrategyData rv.2 .traditionalGisOrder)

/-- `SpatialRef::from_esri` (srs.rs lines 208–224). -/
def SpatialRef.from_esri (e : OsrEngine) (esriWkt : String) : Except ErrorKind SRSData :=
  if containsNul esriWkt then .error .nulError
  else
    let rv := e.importFromESRI e.newEmpty esriWkt
    if rv.1 ≠ OGRERR_NONE then .error (.ogrError rv.1 "OSRImportFromESRI")
    else .ok (setStrategyData rv.2 .traditionalGisOrder)

/-- `SpatialRef::to_proj4` (srs.rs lines 285–297). -/
def SpatialRef.to_proj4 (d : SRSData) : Except ErrorKind String :=
  if d.proj4Rv ≠ OGRERR_NONE then .error (.ogrError d.proj4Rv "OSRExportToProj4")
  else .ok d.proj4Str

/-- Value of a non-empty run of decimal digits; `none` on any non-digit. -/
def digitsVal : List Char → Nat → Option Nat
  | [], acc => some acc
  | c :: cs, acc =>
    if c.isDigit then digitsVal cs (acc * 10 + (c.toNat - 48)) else none

/-- `none` unless the list is a non-empty run of decimal digits. -/
def digitsToNat? (cs : List Char) : Option Nat :=
  match cs with
  | [] => none
  | _ => digitsVal cs 0

/-- Models `i32::from_str`: an optional sign followed by at least one decimal
digit, failing on anything else and on overflow past the 32-bit signed
range. -/
def parseI32 (s : String) : Option Int :=
  let cs := s.toList
  let signAndDigits : Int × List Char :=
    match cs with
    | '+' :: rest => (1, rest)
    | '-' :: rest => (-1, rest)
    | _ => (1, cs)
  match digitsToNat? signAndDigits.2 with
  | none => none
  | some n =>
    let v : Int := signAndDigits.1 * n
    if -2147483648 ≤ v ∧ v ≤ 2147483647 then some v else none

/-- `SpatialRef::auth_code` (srs.rs lines 308–322): `OSRGetAuthorityCode`
NULL-checked (note the source passes `"OSRGetAuthorityCode"`), then the code
segment is parsed as an `i32`; an unparsable segment becomes an
`OgrError{OGRERR_UNSUPPORTED_SRS}`.  Model strings are valid UTF-8, so the
`to_str()?` step cannot fail here. -/
def SpatialRef.auth_code (d : SRSData) : Except ErrorKind Int :=
  match d.authCode with
  | none => .error (.nullPointer "OSRGetAuthorityCode")
  | some s =>
    match parseI32 s with
    | some n => .ok n
    | none => .error (.ogrError OGRERR_UNSUPPORTED_SRS "OSRGetAuthorityCode")

/-- `SpatialRef::authority` (srs.rs lines 324–336): authority name then code,
each NULL-checked (the source's name-check operation string is the literal
`"SRGetAuthorityName"`), yielding `"<name>:<code>"`. -/
def SpatialRef.authority (d : SRSData) : Except ErrorKind String :=
  match d.authName with
  | none => .error (.nullPointer "SRGetAuthorityName")
  | some name =>
    match d.authCode with
    | none => .error (.nullPointer "OSRGetAuthorityCode")
    | some code => .ok (name ++ ":" ++ code)

/-- `CoordTransform` (srs.rs lines 28–32): the native transform context plus
the two diagnostic identity strings (source field names `from`/`to`; Lean
reserves `from`, so they are `src`/`dst` here). -/
structure CoordTransform where
  ctx : Nat
  src : String
  dst : String
deriving DecidableEq

/-- Outcome of the native `OCTTransform` call: success with the overwritten
buffers, or failure together with the content of the engine's last-error
message buffer at that moment. -/
inductive OctOutcome where
  | success (x y z : List ℚ)
  | failure (lastErrMsg : String)
deriving DecidableEq

/-- Oracle for the native transform calls: `octNew` is
`OCTNewCoordinateTransformation` over the two spatial-reference objects
(`none` = NULL), `octTransform` is `OCTTransform` on a context and the three
buffers. -/
structure OctEngine where
  octNew : SRSData → SRSData → Option Nat
  octTransform : Nat → List ℚ → List ℚ → List ℚ → OctOutcome

/-- Modelled from the spec: `utils::_last_null_pointer_err` is not under
`src/`; per the spec it yields the `NullHandleError` carrying the failing
operation name. -/
def lastNullPointerErr (methodName : String) : ErrorKind :=
  .nullPointer methodName

/-- Modelled from the spec: `utils::_last_cpl_err` is not under `src/`; per
the spec it drains the engine's last-error message buffer, yielding a
`CplError` with that message (class `CE_Failure = 3`). -/
def lastCplErr (drainedMsg : String) : ErrorKind :=
  .cplError 3 0 drainedMsg

/-- Models `msg.trim().is_empty()`: the string trims to empty exactly when
every character is whitespace. -/
def trimIsEmpty (s : String) : Bool :=
  s.toList.all (fun c => c.isWhitespace)

/-- `Result::or_else` on the two identity computations in
`CoordTransform::new`. -/
def orElseResult (a b : Except ErrorKind String) : Except ErrorKind String :=
  match a with
  | .ok v => .ok v
  | .error _ => b

/-- `CoordTransform::new` (srs.rs lines 42–53): NULL-checked native creation,
then the `from` identity (`authority().or_else(|_| to_proj4())?`), then the
`to` identity the same way. -/
def CoordTransform.new (e : OctEngine) (spRef1 spRef2 : SRSData) : Except ErrorKind CoordTransform :=
  match e.octNew spRef1 spRef2 with
  | none => .error (lastNullPointerErr "OCTNewCoordinateTransformation")
  | some c =>
    match orElseResult (SpatialRef.authority spRef1) (SpatialRef.to_proj4 spRef1) with
    | .error err => .error err
    | .ok f =>
      match orElseResult (SpatialRef.authority spRef2) (SpatialRef.to_proj4 spRef2) with
      | .error err => .error err
      | .ok t => .ok ⟨c, f, t⟩

/-- Result of `transform_coords`: `panicked` models the `assert_eq!` firing. -/
inductive TCResult where
  | panicked
  | err (e : ErrorKind)
  | ok (x y z : List ℚ)
deriving DecidableEq

/-- `CoordTransform::transform_coords` (srs.rs lines 65–97): asserts
`x.len() == y.len()` (never comparing `z`), calls `OCTTransform`, and on
native failure matches the drained last-error kind — a `CplError` whose
message trims to empty yields `msg = None`, otherwise `Some msg`; any other
drained kind would be propagated as-is (dead under the spec model of
`_last_cpl_err`). -/
def CoordTransform.transform_coords (e : OctEngine) (t : CoordTransform)
    (x y z : List ℚ) : TCResult :=
  let nbCoords := x.length
  if nbCoords ≠ y.length then .panicked
  else
    match e.octTransform t.ctx x y z with
    | .success x2 y2 z2 => .ok x2 y2 z2
    | .failure lastErrMsg =>
      match lastCplErr lastErrMsg with
      | .cplError _ _ msg =>
        if trimIsEmpty msg then .err (.invalidCoordinateRange t.src t.dst none)
        else .err (.invalidCoordinateRange t.src t.dst (some msg))
      | other => .err other

/-- The heap of live native `OGRSpatialReference` objects, indexed by handle.
Used to state aliasing facts: `OSRClone` allocates a fresh, independently
owned object. -/
structure OsrHeap where
  objs : List SRSData
deriving DecidableEq

/-- `SpatialRef` (srs.rs lines 110–113): owns one native object, here a
handle into the heap. -/
structure SpatialRef where
  idx : Nat
deriving DecidableEq

/-- Dereference a handle (live handles are always in range). -/
def OsrHeap.getData (h : OsrHeap) (r : SpatialRef) : SRSData :=
  h.objs.getD r.idx default

/-- `impl Clone for SpatialRef` (srs.rs lines 122–129): `OSRClone` allocates
an independent native object with identical content; the result is wrapped
without any error path. -/
def SpatialRef.cloneSR (h : OsrHeap) (r : SpatialRef) : OsrHeap × SpatialRef :=
  (⟨h.objs ++ [h.getData r]⟩, ⟨h.objs.length⟩)

/-- `impl PartialEq for SpatialRef` (srs.rs lines 131–135): `OSRIsSame == 1`,
the engine's semantic-equivalence test, modelled as equality of the abstract
semantic identity. -/
def SpatialRef.eqSR (h : OsrHeap) (a b : SpatialRef) : Bool :=
  (h.getData a).semantic == (h.getData b).semantic

/-- `SpatialRef::set_axis_mapping_strategy` (srs.rs lines 351–355): mutates
the one native object the handle owns. -/
def SpatialRef.set_axis_mapping_strategy (h : OsrHeap) (r : SpatialRef)
    (strategy : AxisStrategy) : OsrHeap :=
  ⟨h.objs.set r.idx (setStrategyData (h.getData r) strategy)⟩

/-- `SpatialRef::get_axis_mapping_strategy` (srs.rs lines 358–360). -/
def SpatialRef.get_axis_mapping_strategy (h : OsrHeap) (r : SpatialRef) : AxisStrategy :=
  (h.getData r).axisStrategy

/-- Modelled from the spec: the native process-wide option table behind
`CPLSetConfigOption`/`CPLGetConfigOption` — a key-value store where lookup of
a missing key yields the supplied default and setting NULL clears the key. -/
abbrev ConfigStore := List (String × String)

/-- `set_config_option` (config.rs lines 53–60): both arguments are
C-string-converted (failing on an embedded NUL, key first) before the native
store is touched. -/
def set_config_option (st : ConfigStore) (key value : String) : Except ErrorKind ConfigStore :=
  if containsNul key then .error .nulError
  else if containsNul value then .error .nulError
  else .ok ((key, value) :: st)

/-- `get_config_option` (config.rs lines 68–73): key then default are
C-string-converted (failing on an embedded NUL); `CPLGetConfigOption` returns
the stored value or the default when the key is missing. -/
def get_config_option (st : ConfigStore) (key default_ : String) : Except ErrorKind String :=
  if containsNul key then .error .nulError
  else if containsNul default_ then .error .nulError
  else
    .ok (match List.lookup key st with
      | some v => v
      | none => default_)

/-- `clear_config_option` (config.rs lines 79–85): the key is
C-string-converted (failing on an embedded NUL) before
`CPLSetConfigOption(key, NULL)` removes the override. -/
def clear_config_option (st : ConfigStore) (key : String) : Except ErrorKind ConfigStore :=
  if containsNul key then .error .nulError
  else .ok (List.filter (fun kv => !(kv.1 == key)) st)

/-! ## Concrete fixtures for witnesses -/

/-- A native object state as the engine would produce for EPSG:4326. -/
def sampleSRS : SRSData :=
  ⟨some "EPSG", some "4326", 0, "+proj=longlat +datum=WGS84 +no_defs", .authorityCompliant, 42⟩

/-- A native object state with no authority tag and a failing proj4 export
(status `OGRERR_FAILURE = 6`). -/
def noAuthSRS : SRSData :=
  ⟨none, none, 6, "", .authorityCompliant, 7⟩

/-- An OSR oracle on which every construction call succeeds and yields
`sampleSRS`. -/
def sampleOsrEngine : OsrEngine :=
  ⟨fun _ => some sampleSRS, some sampleSRS, fun d _ => (0, d),
   fun _ _ => (0, sampleSRS), fun _ _ => (0, sampleSRS), fun _ _ => (0, sampleSRS)⟩

/-- A transform oracle whose native creation call returns NULL. -/
def nullOctEngine : OctEngine :=
  ⟨fun _ _ => none, fun _ _ _ _ => .failure ""⟩

/-- A transform oracle whose creation succeeds and whose transform call
succeeds with fixed output buffers. -/
def sampleOctEngine : OctEngine :=
  ⟨fun _ _ => some 0, fun _ _ _ _ => .success [1] [2] [3]⟩

/-- A transform oracle whose transform call fails leaving a whitespace-only
last-error buffer. -/
def blankFailOctEngine : OctEngine :=
  ⟨fun _ _ => some 0, fun _ _ _ _ => .failure "  "⟩

/-- A transform oracle whose transform call fails leaving a real message in
the last-error buffer. -/
def msgFailOctEngine : OctEngine :=
  ⟨fun _ _ => some 0, fun _ _ _ _ => .failure "latitude or longitude exceeded limits"⟩

/-! ## Helper lemmas -/

theorem list_set_at_append (dx : List (Option ℚ)) (w v : Option ℚ) (R : List (Option ℚ)) :
    (dx ++ w :: R).set dx.length v = dx ++ v :: R := by
  induction dx with
  | nil => rfl
  | cons a l ih => simp [ih]

theorem writeCoords_fill (e : GeosEngine)
    (hx : ∀ l i q, e.setXOk l i q = true) (hy : ∀ l i q, e.setYOk l i q = true) :
    ∀ (ps : List Coordinate) (len : Nat) (dx dy : List (Option ℚ)),
      dy.length = dx.length →
      writeCoords e len dx.length ps
        ⟨len, dx ++ List.replicate ps.length none, dy ++ List.replicate ps.length none⟩
        = .ok ⟨len, dx ++ ps.map (fun c => some c.x), dy ++ ps.map (fun c => some c.y)⟩ := by
  intro ps
  induction ps with
  | nil => intro len dx dy _; simp [writeCoords]
  | cons p ps ih =>
    intro len dx dy hlen
    have hsx := list_set_at_append dx none (some p.x) (List.replicate ps.length none)
    have hsy := list_set_at_append dy none (some p.y) (List.replicate ps.length none)
    rw [hlen] at hsy
    have ihx := ih len (dx ++ [some p.x]) (dy ++ [some p.y]) (by simp [hlen])
    simp only [List.length_append, List.length_cons, List.length_nil, Nat.zero_add,
      List.append_assoc, List.cons_append, List.nil_append] at ihx
    simp only [writeCoords, hx, hy, if_true, List.replicate, List.length_cons, hsx, hsy]
    simpa [Nat.add_comm] using ihx

theorem writeCoords_spec (e : GeosEngine) :
    ∀ (ps : List Coordinate) (len : Nat) (dx dy : List (Option ℚ)),
      dy.length = dx.length →
      writeCoords e len dx.length ps
        ⟨len, dx ++ List.replicate ps.length none, dy ++ List.replicate ps.length none⟩
        = .err .sequenceWrite ∨
      writeCoords e len dx.length ps
        ⟨len, dx ++ List.replicate ps.length none, dy ++ List.replicate ps.length none⟩
        = .ok ⟨len, dx ++ ps.map (fun c => some c.x), dy ++ ps.map (fun c => some c.y)⟩ := by
  intro ps
  induction ps with
  | nil => intro len dx dy _; right; simp [writeCoords]
  | cons p ps ih =>
    intro len dx dy hlen
    by_cases hX : e.setXOk len dx.length p.x = true
    · by_cases hY : e.setYOk len dx.length p.y = true
      · have hsx := list_set_at_append dx none (some p.x) (List.replicate ps.length none)
        have hsy := list_set_at_append dy none (some p.y) (List.replicate ps.length none)
        rw [hlen] at hsy
        have ihx := ih len (dx ++ [some p.x]) (dy ++ [some p.y]) (by simp [hlen])
        simp only [List.length_append, List.length_cons, List.length_nil, Nat.zero_add,
          List.append_assoc, List.cons_append, List.nil_append] at ihx
        simp only [writeCoords, hX, hY, if_true, List.replicate, List.length_cons, hsx, hsy]
        simpa [Nat.add_comm] using ihx
      · left; simp [writeCoords, hX, hY, List.replicate, hlen,
          list_set_at_append dx none (some p.x) (List.replicate ps.length none)]
    · left; simp [writeCoords, hX, List.replicate]

theorem create_coord_seq_allOk (e : GeosEngine)
    (hA : ∀ n, e.allocCoordSeq n = true)
    (hx : ∀ l i q, e.setXOk l i q = true) (hy : ∀ l i q, e.setYOk l i q = true)
    (L : List Coordinate) :
    create_coord_seq e L L.length
      = .ok ⟨L.length, L.map (fun c => some c.x), L.map (fun c => some c.y)⟩ := by
  have h := writeCoords_fill e hx hy L L.length [] [] rfl
  simpa [create_coord_seq, hA] using h

/-! ## Claim theorems: geometry bridge -/

/-- C1: for a ring with 0 points the conversion builds an empty coordinate
sequence of size 0; for a ring with `n ≥ 3` points it appends a copy of the
first point (yielding `n + 1` points) exactly when the first point differs
from the last point or `n = 3`, and otherwise passes the `n` points through
unmodified.  Stated over any GEOS oracle that accepts every allocation and
write. -/
theorem convertRing_ring_closure (e : GeosEngine)
    (hA : ∀ n, e.allocCoordSeq n = true)
    (hx : ∀ l i q, e.setXOk l i q = true)
    (hy : ∀ l i q, e.setYOk l i q = true) :
    convertRing e [] = .ok ⟨0, [], []⟩ ∧
    ∀ (p : Coordinate) (ps : List Coordinate), 3 ≤ (p :: ps).length →
      (((p :: ps).getLast? ≠ some p ∨ (p :: ps).length = 3) →
        convertRing e (p :: ps) =
          .ok ⟨(p :: ps).length + 1, ((p :: ps) ++ [p]).map (fun c => some c.x),
            ((p :: ps) ++ [p]).map (fun c => some c.y)⟩) ∧
      ((p :: ps).getLast? = some p → (p :: ps).length ≠ 3 →
        convertRing e (p :: ps) =
          .ok ⟨(p :: ps).length, (p :: ps).map (fun c => some c.x),
            (p :: ps).map (fun c => some c.y)⟩) := by
  constructor
  · have h := create_coord_seq_allOk e hA hx hy []
    simpa [convertRing] using h
  · intro p ps h3
    have hnot : ¬(0 < (p :: ps).length ∧ (p :: ps).length < 3) := by
      simp only [List.length_cons] at h3 ⊢; omega
    have h3' : 3 ≤ ps.length + 1 := by simpa using h3
    constructor
    · intro hcl
      have hcs := create_coord_seq_allOk e hA hx hy ((p :: ps) ++ [p])
      rcases hcl with hne | h3eq
      · simp only [convertRing, List.length_cons, List.head?_cons]
        rw [if_neg (show ¬(0 < ps.length + 1 ∧ ps.length + 1 < 3) by omega)]
        have hd : (some p = (p :: ps).getLast?) = False :=
          eq_false (fun h => hne h.symm)
        simp [hd]
        simpa using hcs
      · have h2eq : ps.length = 2 := by
          simp only [List.length_cons] at h3eq; omega
        simp only [convertRing, List.length_cons, List.head?_cons, h2eq]
        simpa [h2eq] using hcs
    · intro hcl h3ne
      have h2ne : (ps.length + 1 = 3) = False := by
        simp only [List.length_cons] at h3ne
        exact eq_false (by omega)
      have hcs := create_coord_seq_allOk e hA hx hy (p :: ps)
      simp only [convertRing, List.length_cons, List.head?_cons]
      rw [if_neg (show ¬(0 < ps.length + 1 ∧ ps.length + 1 < 3) by omega)]
      have hd : (some p = (p :: ps).getLast?) = True := eq_true hcl.symm
      simp [hd, h2ne]
      simpa using hcs

/-- Witness for C1: the three rings from the spec, converted through the
all-accepting oracle — an unclosed 3-point ring closes to 4 points, an
already-closed 4-point ring passes through with size 4, and a closed
degenerate 3-point ring re-closes to 4 points. -/
theorem convertRing_ring_closure_witness :
    convertRing okGeosEngine [⟨0, 0⟩, ⟨0, 1⟩, ⟨1, 1⟩] =
      .ok ⟨4, [some 0, some 0, some 1, some 0], [some 0, some 1, some 1, some 0]⟩ ∧
    convertRing okGeosEngine [⟨0, 0⟩, ⟨0, 1⟩, ⟨1, 1⟩, ⟨0, 0⟩] =
      .ok ⟨4, [some 0, some 0, some 1, some 0], [some 0, some 1, some 1, some 0]⟩ ∧
    convertRing okGeosEngine [⟨0, 0⟩, ⟨0, 1⟩, ⟨0, 0⟩] =
      .ok ⟨4, [some 0, some 0, some 0, some 0], [some 0, some 1, some 0, some 0]⟩ :=
  ⟨((convertRing_ring_closure okGeosEngine (fun _ => rfl) (fun _ _ _ => rfl)
      (fun _ _ _ => rfl)).2 ⟨0, 0⟩ [⟨0, 1⟩, ⟨1, 1⟩] (by decide)).1 (by decide),
   ((convertRing_ring_closure okGeosEngine (fun _ => rfl) (fun _ _ _ => rfl)
      (fun _ _ _ => rfl)).2 ⟨0, 0⟩ [⟨0, 1⟩, ⟨1, 1⟩, ⟨0, 0⟩] (by decide)).2
      (by decide) (by decide),
   ((convertRing_ring_closure okGeosEngine (fun _ => rfl) (fun _ _ _ => rfl)
      (fun _ _ _ => rfl)).2 ⟨0, 0⟩ [⟨0, 1⟩, ⟨0, 0⟩] (by decide)).1 (by decide)⟩

/-- C2 counterexample: the 1-point ring is rejected, but the
`InvalidGeometry` payload is not the claimed string
`"ring must have at least 3 coordinates"`. -/
theorem convertRing_short_message_counterexample :
    convertRing okGeosEngine [⟨0, 0⟩] ≠
      .err (.invalidGeometry "ring must have at least 3 coordinates") := by
  decide

/-- C2 (amended): a ring with exactly 1 or 2 points fails with
`InvalidGeometry` carrying the source's message `"impossible to create a
LinearRing, A LinearRing must have at least 3 coordinates"`, for every GEOS
oracle — the rejection precedes any closure repair and any native call, so a
1- or 2-point ring is rejected even when appending the first point would
reach 3 points. -/
theorem convertRing_rejects_short_rings (e : GeosEngine) (points : List Coordinate)
    (h : points.length = 1 ∨ points.length = 2) :
    convertRing e points =
      .err (.invalidGeometry
        "impossible to create a LinearRing, A LinearRing must have at least 3 coordinates") := by
  rcases h with h | h <;> simp [convertRing, h]

/-- Witness for C2 (amended), at a 2-point ring that is already closed —
closing it would reach 3 points, yet it is rejected. -/
theorem convertRing_rejects_short_rings_witness :
    convertRing okGeosEngine [⟨0, 0⟩, ⟨0, 0⟩] =
      .err (.invalidGeometry
        "impossible to create a LinearRing, A LinearRing must have at least 3 coordinates") :=
  convertRing_rejects_short_rings okGeosEngine [⟨0, 0⟩, ⟨0, 0⟩] (Or.inr rfl)

/-- C10: when the native sequence constructor fails, `create_coord_seq`
panics (the `.expect`); otherwise it either surfaces a per-index write
rejection as a returned error, or returns a sequence of exactly the requested
length with X and Y assigned at every index in input order. -/
theorem create_coord_seq_alloc_panics (e : GeosEngine) (points : List Coordinate) :
    (e.allocCoordSeq points.length = false →
      create_coord_seq e points points.length = .panicked) ∧
    (e.allocCoordSeq points.length = true →
      create_coord_seq e points points.length = .err .sequenceWrite ∨
      create_coord_seq e points points.length =
        .ok ⟨points.length, points.map (fun c => some c.x), points.map (fun c => some c.y)⟩) := by
  constructor
  · intro h; simp [create_coord_seq, h]
  · intro h
    have hs := writeCoords_spec e points points.length [] [] rfl
    simpa [create_coord_seq, h] using hs

/-- Witness for C10: a failing allocator panics; the all-accepting oracle
lands in the non-panicking branch. -/
theorem create_coord_seq_alloc_panics_witness :
    create_coord_seq ⟨fun _ => false, fun _ _ _ => true, fun _ _ _ => true⟩ [⟨0, 0⟩] 1 =
      .panicked ∧
    (create_coord_seq okGeosEngine [⟨0, 0⟩] 1 = .err .sequenceWrite ∨
      create_coord_seq okGeosEngine [⟨0, 0⟩] 1 = .ok ⟨1, [some 0], [some 0]⟩) :=
  ⟨(create_coord_seq_alloc_panics ⟨fun _ => false, fun _ _ _ => true, fun _ _ _ => true⟩
      [⟨0, 0⟩]).1 rfl,
   (create_coord_seq_alloc_panics okGeosEngine [⟨0, 0⟩]).2 rfl⟩

theorem list_getD_set_ne {α : Type} (l : List α) (i j : Nat) (v d : α) (hij : i ≠ j) :
    (l.set i v).getD j d = l.getD j d := by
  induction l generalizing i j with
  | nil => simp
  | cons a t ih =>
    cases i with
    | zero =>
      cases j with
      | zero => exact absurd rfl hij
      | succ j => simp [List.getD]
    | succ i =>
      cases j with
      | zero => simp [List.getD]
      | succ j => simpa [List.getD] using ih i j (by omega)

theorem list_getD_append_left {α : Type} (l m : List α) (i : Nat) (d : α)
    (hi : i < l.length) : (l ++ m).getD i d = l.getD i d := by
  induction l generalizing i with
  | nil => simp at hi
  | cons a t ih =>
    cases i with
    | zero => simp [List.getD]
    | succ i => simpa [List.getD] using ih i (by simpa using hi)

theorem list_getD_concat_length {α : Type} (l : List α) (v d : α) :
    (l ++ [v]).getD l.length d = v := by
  induction l with
  | nil => rfl
  | cons a t ih => simp [List.getD, ih]

/-! ## Claim theorems: reference systems and transforms -/

/-- C3: `from_wkt`, `from_epsg`, `from_proj4` and `from_esri` each leave the
freshly constructed object with the traditional-GIS-order axis-mapping
strategy, while `from_definition` and `new` return the engine-produced
object verbatim, applying no normalization. -/
theorem factory_axis_normalization (e : OsrEngine) (w d p es : String) (c : Nat) :
    (∀ r, SpatialRef.from_wkt e w = .ok r → r.axisStrategy = .traditionalGisOrder) ∧
    (∀ r, SpatialRef.from_epsg e c = .ok r → r.axisStrategy = .traditionalGisOrder) ∧
    (∀ r, SpatialRef.from_proj4 e p = .ok r → r.axisStrategy = .traditionalGisOrder) ∧
    (∀ r, SpatialRef.from_esri e es = .ok r → r.axisStrategy = .traditionalGisOrder) ∧
    (∀ r, SpatialRef.from_definition e d = .ok r →
      ∃ d0, e.newEmpty = some d0 ∧ r = (e.setFromUserInput d0 d).2) ∧
    (∀ r, SpatialRef.new e = .ok r → e.newEmpty = some r) := by
  refine ⟨?_, ?_, ?_, ?_, ?_, ?_⟩
  · intro r h
    unfold SpatialRef.from_wkt at h
    by_cases hn : containsNul w = true
    · simp [hn] at h
    · simp only [Bool.not_eq_true] at hn
      cases hp : e.parseWkt w with
      | none => simp [hn, hp] at h
      | some d0 =>
        simp only [hn, hp, Bool.false_eq_true, if_false] at h
        cases h
        rfl
  · intro r h
    unfold SpatialRef.from_epsg at h
    by_cases hrv : (e.importFromEPSG e.newEmpty c).1 ≠ OGRERR_NONE
    · simp [hrv] at h
    · simp only [hrv, if_false] at h
      cases h
      rfl
  · intro r h
    unfold SpatialRef.from_proj4 at h
    by_cases hn : containsNul p = true
    · simp [hn] at h
    · simp only [Bool.not_eq_true] at hn
      by_cases hrv : (e.importFromProj4 e.newEmpty p).1 ≠ OGRERR_NONE
      · simp [hn, hrv] at h
      · simp only [hn, hrv, Bool.false_eq_true, if_false] at h
        cases h
        rfl
  · intro r h
    unfold SpatialRef.from_esri at h
    by_cases hn : containsNul es = true
    · simp [hn] at h
    · simp only [Bool.not_eq_true] at hn
      by_cases hrv : (e.importFromESRI e.newEmpty es).1 ≠ OGRERR_NONE
      · simp [hn, hrv] at h
      · simp only [hn, hrv, Bool.false_eq_true, if_false] at h
        cases h
        rfl
  · intro r h
    unfold SpatialRef.from_definition at h
    cases hne : e.newEmpty with
    | none => rw [hne] at h; cases h
    | some d0 =>
      rw [hne] at h
      by_cases hn : containsNul d = true
      · simp [hn] at h
      · simp only [Bool.not_eq_true] at hn
        by_cases hrv : (e.setFromUserInput d0 d).1 ≠ OGRERR_NONE
        · simp [hn, hrv] at h
        · simp only [hn, hrv, Bool.false_eq_true, if_false] at h
          cases h
          exact ⟨d0, rfl, rfl⟩
  · intro r h
    unfold SpatialRef.new at h
    cases hne : e.newEmpty with
    | none => rw [hne] at h; cases h
    | some d0 => rw [hne] at h; cases h; rfl

/-- Witness for C3: on the all-succeeding oracle, `from_wkt` yields the
normalized strategy while `new` hands back the engine's object (whose
strategy is authority-compliant) untouched. -/
theorem factory_axis_normalization_witness :
    (setStrategyData sampleSRS .traditionalGisOrder).axisStrategy = .traditionalGisOrder ∧
    sampleOsrEngine.newEmpty = some sampleSRS :=
  ⟨(factory_axis_normalization sampleOsrEngine "w" "d" "p" "e" 4326).1
      (setStrategyData sampleSRS .traditionalGisOrder) rfl,
   (factory_axis_normalization sampleOsrEngine "w" "d" "p" "e" 4326).2.2.2.2.2
      sampleSRS rfl⟩

/-- C6: when the engine imports authority code `c` successfully and records
`c` (as a string parsing back to `c`) as the object's authority code — the
well-formed-code contract of the native engine — then
`from_epsg(c)` succeeds and `auth_code()` on the result returns `c`; in
particular the axis-order normalization `from_epsg` applies does not disturb
the recorded code. -/
theorem from_epsg_auth_code_roundtrip (e : OsrEngine) (c : Nat) (d : SRSData) (s : String)
    (h1 : e.importFromEPSG e.newEmpty c = (0, d))
    (h2 : d.authCode = some s)
    (h3 : parseI32 s = some (c : Int)) :
    ∃ r, SpatialRef.from_epsg e c = .ok r ∧ SpatialRef.auth_code r = .ok (c : Int) := by
  refine ⟨setStrategyData d .traditionalGisOrder, ?_, ?_⟩
  · unfold SpatialRef.from_epsg
    rw [h1]
    simp [OGRERR_NONE]
  · unfold SpatialRef.auth_code setStrategyData
    simp [h2, h3]

/-- Witness for C6 at EPSG:4326 on the all-succeeding oracle. -/
theorem from_epsg_auth_code_roundtrip_witness :
    ∃ r, SpatialRef.from_epsg sampleOsrEngine 4326 = .ok r ∧
      SpatialRef.auth_code r = .ok (4326 : Int) :=
  from_epsg_auth_code_roundtrip sampleOsrEngine 4326 sampleSRS "4326" rfl rfl (by decide)

/-- C7: cloning a valid handle yields a handle to a live, independently
allocated object; the clone compares `equals`-true against the original
(`OSRIsSame` on identical content); and setting the axis-mapping strategy on
the clone leaves the strategy reported by the original unchanged.  The
`Clone` impl itself has no error path (its model is a total function). -/
theorem clone_equals_and_independent (h : OsrHeap) (r : SpatialRef)
    (hv : r.idx < h.objs.length) :
    (SpatialRef.cloneSR h r).2.idx < (SpatialRef.cloneSR h r).1.objs.length ∧
    SpatialRef.eqSR (SpatialRef.cloneSR h r).1 (SpatialRef.cloneSR h r).2 r = true ∧
    ∀ s, SpatialRef.get_axis_mapping_strategy
        (SpatialRef.set_axis_mapping_strategy (SpatialRef.cloneSR h r).1
          (SpatialRef.cloneSR h r).2 s) r
      = SpatialRef.get_axis_mapping_strategy (SpatialRef.cloneSR h r).1 r := by
  have hclone : (SpatialRef.cloneSR h r).1.objs = h.objs ++ [h.getData r] := rfl
  have hidx : (SpatialRef.cloneSR h r).2.idx = h.objs.length := rfl
  refine ⟨?_, ?_, ?_⟩
  · rw [hclone, hidx]
    simp
  · unfold SpatialRef.eqSR OsrHeap.getData
    rw [hclone, hidx, list_getD_concat_length,
      list_getD_append_left h.objs [OsrHeap.getData h r] r.idx default hv]
    simp [OsrHeap.getData]
  · intro s
    unfold SpatialRef.get_axis_mapping_strategy SpatialRef.set_axis_mapping_strategy
      OsrHeap.getData
    rw [hclone, hidx]
    rw [list_getD_set_ne (h.objs ++ [OsrHeap.getData h r]) h.objs.length r.idx _ default
      (by omega)]

/-- Witness for C7 on a one-object heap. -/
theorem clone_equals_and_independent_witness :
    SpatialRef.eqSR (SpatialRef.cloneSR ⟨[sampleSRS]⟩ ⟨0⟩).1
      (SpatialRef.cloneSR ⟨[sampleSRS]⟩ ⟨0⟩).2 ⟨0⟩ = true ∧
    SpatialRef.get_axis_mapping_strategy
        (SpatialRef.set_axis_mapping_strategy (SpatialRef.cloneSR ⟨[sampleSRS]⟩ ⟨0⟩).1
          (SpatialRef.cloneSR ⟨[sampleSRS]⟩ ⟨0⟩).2 .traditionalGisOrder) ⟨0⟩
      = SpatialRef.get_axis_mapping_strategy (SpatialRef.cloneSR ⟨[sampleSRS]⟩ ⟨0⟩).1 ⟨0⟩ :=
  ⟨(clone_equals_and_independent ⟨[sampleSRS]⟩ ⟨0⟩ (by decide)).2.1,
   (clone_equals_and_independent ⟨[sampleSRS]⟩ ⟨0⟩ (by decide)).2.2 .traditionalGisOrder⟩

/-- C5: `CoordTransform::new` fails with the null-handle error naming
`OCTNewCoordinateTransformation` when the native creation call returns NULL;
on success each identity string is `authority()` with `to_proj4()` as
fallback; and when both lookups fail for either system, that system's export
error is propagated and no transformer is constructed: for the source system
unconditionally, for the destination system once the source identity has
resolved (the source computes first, so a source failure propagates ahead of
it) — and in every destination-both-fail case no transformer is
constructed. -/
theorem coord_transform_new_spec (e : OctEngine) (sp1 sp2 : SRSData) :
    (e.octNew sp1 sp2 = none →
      CoordTransform.new e sp1 sp2 = .error (.nullPointer "OCTNewCoordinateTransformation")) ∧
    (∀ t, CoordTransform.new e sp1 sp2 = .ok t →
      orElseResult (SpatialRef.authority sp1) (SpatialRef.to_proj4 sp1) = .ok t.src ∧
      orElseResult (SpatialRef.authority sp2) (SpatialRef.to_proj4 sp2) = .ok t.dst) ∧
    (∀ err1 err2, e.octNew sp1 sp2 ≠ none →
      SpatialRef.authority sp1 = .error err1 → SpatialRef.to_proj4 sp1 = .error err2 →
      CoordTransform.new e sp1 sp2 = .error err2) ∧
    (∀ f err1 err2, e.octNew sp1 sp2 ≠ none →
      orElseResult (SpatialRef.authority sp1) (SpatialRef.to_proj4 sp1) = .ok f →
      SpatialRef.authority sp2 = .error err1 → SpatialRef.to_proj4 sp2 = .error err2 →
      CoordTransform.new e sp1 sp2 = .error err2) ∧
    (∀ err1 err2, SpatialRef.authority sp2 = .error err1 →
      SpatialRef.to_proj4 sp2 = .error err2 →
      ∀ t, CoordTransform.new e sp1 sp2 ≠ .ok t) := by
  have hOk : ∀ t, CoordTransform.new e sp1 sp2 = .ok t →
      orElseResult (SpatialRef.authority sp1) (SpatialRef.to_proj4 sp1) = .ok t.src ∧
      orElseResult (SpatialRef.authority sp2) (SpatialRef.to_proj4 sp2) = .ok t.dst := by
    intro t h
    unfold CoordTransform.new at h
    cases hoct : e.octNew sp1 sp2 with
    | none => rw [hoct] at h; cases h
    | some c =>
      rw [hoct] at h
      cases h1 : orElseResult (SpatialRef.authority sp1) (SpatialRef.to_proj4 sp1) with
      | error err => rw [h1] at h; cases h
      | ok f =>
        rw [h1] at h
        cases h2 : orElseResult (SpatialRef.authority sp2) (SpatialRef.to_proj4 sp2) with
        | error err => rw [h2] at h; cases h
        | ok g =>
          rw [h2] at h
          cases h
          exact ⟨rfl, rfl⟩
  refine ⟨?_, hOk, ?_, ?_, ?_⟩
  · intro hnull
    unfold CoordTransform.new
    rw [hnull]
    rfl
  · intro err1 err2 hoct h1 h2
    unfold CoordTransform.new
    cases hc : e.octNew sp1 sp2 with
    | none => exact absurd hc hoct
    | some c =>
      have : orElseResult (SpatialRef.authority sp1) (SpatialRef.to_proj4 sp1) = .error err2 := by
        unfold orElseResult
        rw [h1, h2]
      rw [this]
  · intro f err1 err2 hoct h1 h2a h2b
    unfold CoordTransform.new
    cases hc : e.octNew sp1 sp2 with
    | none => exact absurd hc hoct
    | some c =>
      rw [h1]
      have : orElseResult (SpatialRef.authority sp2) (SpatialRef.to_proj4 sp2) = .error err2 := by
        unfold orElseResult
        rw [h2a, h2b]
      rw [this]
  · intro err1 err2 h2a h2b t hok
    have hd := (hOk t hok).2
    unfold orElseResult at hd
    rw [h2a, h2b] at hd
    cases hd

/-- Witness for C5: a NULL creation fails with the named operation; a source
system with neither authority nor proj4 export propagates the export error,
and so does a destination system with neither, once the source identity has
resolved. -/
theorem coord_transform_new_spec_witness :
    CoordTransform.new nullOctEngine sampleSRS sampleSRS =
      .error (.nullPointer "OCTNewCoordinateTransformation") ∧
    CoordTransform.new sampleOctEngine noAuthSRS sampleSRS =
      .error (.ogrError 6 "OSRExportToProj4") ∧
    CoordTransform.new sampleOctEngine sampleSRS noAuthSRS =
      .error (.ogrError 6 "OSRExportToProj4") :=
  ⟨(coord_transform_new_spec nullOctEngine sampleSRS sampleSRS).1 rfl,
   (coord_transform_new_spec sampleOctEngine noAuthSRS sampleSRS).2.2.1
     (.nullPointer "SRGetAuthorityName") (.ogrError 6 "OSRExportToProj4")
     (by decide) rfl rfl,
   (coord_transform_new_spec sampleOctEngine sampleSRS noAuthSRS).2.2.2.1
     "EPSG:4326" (.nullPointer "SRGetAuthorityName") (.ogrError 6 "OSRExportToProj4")
     (by decide) rfl rfl rfl⟩

/-- C4: under the equal-length precondition, a native transform failure
yields `InvalidCoordinateRange` with both identities present and the message
`none` exactly when the drained last-error buffer trims to empty (otherwise
the drained message); a native success returns the overwritten buffers. -/
theorem transform_coords_error_translation (e : OctEngine) (t : CoordTransform)
    (x y z : List ℚ) (hlen : x.length = y.length) :
    (∀ x2 y2 z2, e.octTransform t.ctx x y z = .success x2 y2 z2 →
      CoordTransform.transform_coords e t x y z = .ok x2 y2 z2) ∧
    (∀ m, e.octTransform t.ctx x y z = .failure m →
      CoordTransform.transform_coords e t x y z =
        .err (.invalidCoordinateRange t.src t.dst
          (if trimIsEmpty m then none else some m))) := by
  constructor
  · intro x2 y2 z2 hoct
    unfold CoordTransform.transform_coords
    rw [if_neg (by omega), hoct]
  · intro m hoct
    unfold CoordTransform.transform_coords
    rw [if_neg (by omega), hoct]
    unfold lastCplErr
    by_cases ht : trimIsEmpty m = true
    · simp [ht]
    · simp [ht]

/-- Witness for C4: a whitespace-only drained buffer yields `msg = none`, a
real message is carried verbatim, and a native success returns the
engine-overwritten buffers. -/
theorem transform_coords_error_translation_witness :
    CoordTransform.transform_coords blankFailOctEngine ⟨0, "EPSG:4326", "EPSG:3035"⟩
        [5, 6] [7, 8] [0, 0] =
      .err (.invalidCoordinateRange "EPSG:4326" "EPSG:3035" none) ∧
    CoordTransform.transform_coords msgFailOctEngine ⟨0, "EPSG:4326", "EPSG:3035"⟩
        [5, 6] [7, 8] [0, 0] =
      .err (.invalidCoordinateRange "EPSG:4326" "EPSG:3035"
        (some "latitude or longitude exceeded limits")) ∧
    CoordTransform.transform_coords sampleOctEngine ⟨0, "EPSG:4326", "EPSG:3035"⟩
        [5, 6] [7, 8] [0, 0] = .ok [1] [2] [3] :=
  ⟨(transform_coords_error_translation blankFailOctEngine ⟨0, "EPSG:4326", "EPSG:3035"⟩
      [5, 6] [7, 8] [0, 0] rfl).2 "  " rfl,
   (transform_coords_error_translation msgFailOctEngine ⟨0, "EPSG:4326", "EPSG:3035"⟩
      [5, 6] [7, 8] [0, 0] rfl).2 "latitude or longitude exceeded limits" rfl,
   (transform_coords_error_translation sampleOctEngine ⟨0, "EPSG:4326", "EPSG:3035"⟩
      [5, 6] [7, 8] [0, 0] rfl).1 [1] [2] [3] rfl⟩

/-- C8: `transform_coords` enforces the equal-length precondition on `x` and
`y` by a panicking assertion — for every oracle (so before any native call)
the mismatched-length call panics, under the precondition it never panics,
and `z` (universally quantified, of any length) is never length-checked. -/
theorem transform_coords_assert_lengths (e : OctEngine) (t : CoordTransform)
    (x y z : List ℚ) :
    (x.length ≠ y.length → CoordTransform.transform_coords e t x y z = .panicked) ∧
    (x.length = y.length → CoordTransform.transform_coords e t x y z ≠ .panicked) := by
  constructor
  · intro hne
    unfold CoordTransform.transform_coords
    rw [if_pos hne]
  · intro heq
    unfold CoordTransform.transform_coords
    rw [if_neg (by omega)]
    cases e.octTransform t.ctx x y z with
    | success x2 y2 z2 => simp
    | failure m =>
      unfold lastCplErr
      by_cases ht : trimIsEmpty m = true
      · simp [ht]
      · simp [ht]

/-- Witness for C8: mismatched `x`/`y` lengths panic; equal lengths with a
`z` buffer shorter than both do not panic. -/
theorem transform_coords_assert_lengths_witness :
    CoordTransform.transform_coords sampleOctEngine ⟨0, "a", "b"⟩ [1] [] [] = .panicked ∧
    CoordTransform.transform_coords sampleOctEngine ⟨0, "a", "b"⟩ [1, 2] [3, 4] [] ≠
      .panicked :=
  ⟨(transform_coords_assert_lengths sampleOctEngine ⟨0, "a", "b"⟩ [1] [] []).1 (by decide),
   (transform_coords_assert_lengths sampleOctEngine ⟨0, "a", "b"⟩ [1, 2] [3, 4] []).2 rfl⟩

/-- C9: the configuration accessors convert every string argument to a C
string before touching the native store, so any embedded NUL in the key or
the default makes `get` return the encoding error instead of a value — even
though a missing key with well-formed arguments returns the default — and
`set` and `clear` likewise reject embedded NULs in any argument before the
store is touched (their result carries no new store state on error). -/
theorem config_option_nul_rejection (st : ConfigStore) (key default_ value : String) :
    (containsNul key = true → get_config_option st key default_ = .error .nulError) ∧
    (containsNul default_ = true → get_config_option st key default_ = .error .nulError) ∧
    (containsNul key = false → containsNul default_ = false → List.lookup key st = none →
      get_config_option st key default_ = .ok default_) ∧
    ((containsNul key = true ∨ containsNul value = true) →
      set_config_option st key value = .error .nulError) ∧
    (containsNul key = true → clear_config_option st key = .error .nulError) := by
  refine ⟨?_, ?_, ?_, ?_, ?_⟩
  · intro hk
    unfold get_config_option
    rw [if_pos hk]
  · intro hd
    unfold get_config_option
    by_cases hk : containsNul key = true
    · rw [if_pos hk]
    · simp only [Bool.not_eq_true] at hk
      rw [hk]
      simp [hd]
  · intro hk hd hl
    unfold get_config_option
    rw [hk, hd, hl]
    rfl
  · intro hkv
    unfold set_config_option
    rcases hkv with hk | hv
    · rw [if_pos hk]
    · by_cases hk : containsNul key = true
      · rw [if_pos hk]
      · simp only [Bool.not_eq_true] at hk
        rw [hk]
        simp [hv]
  · intro hk
    unfold clear_config_option
    rw [if_pos hk]

/-- Witness for C9: NUL-carrying keys, defaults and values are rejected on
the empty store; a missing key with clean arguments yields the default. -/
theorem config_option_nul_rejection_witness :
    get_config_option [] "GDAL\x00X" "d" = .error .nulError ∧
    get_config_option [] "GDAL_CACHEMAX" "d\x00" = .error .nulError ∧
    get_config_option [] "GDAL_CACHEMAX" "DEFAULT" = .ok "DEFAULT" ∧
    set_config_option [] "GDAL_CACHEMAX" "10\x0024" = .error .nulError ∧
    clear_config_option [] "GDAL\x00X" = .error .nulError :=
  ⟨(config_option_nul_rejection [] "GDAL\x00X" "d" "v").1 (by decide),
   (config_option_nul_rejection [] "GDAL_CACHEMAX" "d\x00" "v").2.1 (by decide),
   (config_option_nul_rejection [] "GDAL_CACHEMAX" "DEFAULT" "v").2.2.1
     (by decide) (by decide) rfl,
   (config_option_nul_rejection [] "GDAL_CACHEMAX" "d" "10\x0024").2.2.2.1
     (Or.inr (by decide)),
   (config_option_nul_rejection [] "GDAL\x00X" "d" "v").2.2.2.2 (by decide)⟩
